import Mathlib

/-!
Shallow embedding of the vd-menu-api backend (Express + Mongoose CRUD
controllers) and proofs about the behaviour its specification claims.

Conventions used throughout:
* A Mongo `ObjectId` is abstracted as a natural number (`OID`).  A raw id
  arriving in a request is `Option OID`: `none` models a string that fails
  `mongoose.Types.ObjectId.isValid` (or is absent), `some i` a well-formed id.
* A JS value that may be `undefined` is an `Option`; the nullish-coalescing
  operator `??` becomes `Option.getD`, and JS truthiness tests (`if (x)`)
  become the `truthyS` / `truthyI` helpers below.
* Stores are lists of documents; `Model.findById` is `List.find?` on the id,
  `Model.find(query)` is `List.filter`, `countDocuments` is `List.length`
  after the same filter, and `save` appends or replaces in the list.
* Controllers return a response value (the envelope produced by
  `sendSuccess` / `sendError`) together with the updated store; an exception
  forwarded to `next(error)` (the process-wide 500 fallback) is the
  `.serverError` response.
-/

namespace VdMenu

/-- Abstracted Mongo ObjectId. -/
abbrev OID := Nat

/-- A request-supplied id: `none` models a value rejected by
`ObjectId.isValid` (malformed or missing), `some i` a valid id. -/
abbrev RawId := Option OID

/-- JS truthiness of an optional string: `undefined` and `""` are falsy. -/
def truthyS : Option String → Bool
  | none => false
  | some s => s ≠ ""

/-- The response envelope: `sendSuccess` / `sendError` from
`utils/response.js`, plus `.serverError` for an exception forwarded to
`next(error)` and rendered by the final 500 fallback handler. -/
inductive HResult (α : Type) where
  | success (statusCode : Nat) (message : String) (data : α)
  | error (statusCode : Nat) (message : String)
  | serverError
deriving DecidableEq, Repr

namespace HResult

def isSuccess {α : Type} : HResult α → Bool
  | .success _ _ _ => true
  | _ => false

end HResult

/-! ### Documents (from the Mongoose schemas under `models/`) -/

/-- `role.model.js`: name, slug, description, status, plus the `timestamps`
pair; only `createdAt` matters to the embedded operations. -/
structure RoleDoc where
  id : OID
  name : String
  slug : String
  description : String
  status : String
  createdAt : Nat
deriving DecidableEq, Repr

/-- Model of a bcryptjs hash: `bcrypt.hash(pw, rounds)` with a fresh salt.
Only the property `compare(pw, hash(pw)) = true` is relevant; the hash is
modelled as the pair of the salt and the hashed plaintext, so that two
hashes of the same password with different salts are different strings in
the stored document. -/
structure BHash where
  salt : Nat
  pw : String
deriving DecidableEq, Repr

/-- Model of `bcrypt.compare`. -/
def bcryptCompare (pw : String) (h : BHash) : Bool :=
  h.pw == pw

/-- `user.model.js`. -/
structure UserDoc where
  id : OID
  name : String
  username : String
  email : String
  password : BHash
  roleId : OID
  createdAt : Nat
deriving DecidableEq, Repr

/-- The Business schema (the second document concatenated into
`models/orderItem.model.js`, lines 36–84): userId and telegramId
references, name, description, location, logo, image (all required), and
status with enum {active, inactive, pending} and default `"active"`. -/
structure BusinessDoc where
  id : OID
  userId : OID
  telegramId : OID
  name : String
  description : String
  location : String
  logo : String
  image : String
  status : String
deriving DecidableEq, Repr

/-- `category.model.js`: name, slug, description, status — and nothing
else.  In particular the schema defines no `businessId` path, although the
category controllers write one (strict mode drops it) and read it
(yielding `undefined`). -/
structure CategoryDoc where
  id : OID
  name : String
  slug : String
  description : String
  status : String
deriving DecidableEq, Repr

/-- `Item.model.js`. -/
structure ItemDoc where
  id : OID
  businessId : OID
  categoryId : OID
  name : String
  description : String
  price : Int
  image : String
  meta : String
  tags : List String
  status : String
deriving DecidableEq, Repr

/-- An embedded order line (`orderItemSchema` inside the order model). -/
structure OrderLine where
  itemId : OID
  unitPrice : Int
  quantity : Int
  total : Int
deriving DecidableEq, Repr

/-- The order document (order model with embedded `items`). -/
structure OrderDoc where
  id : OID
  name : String
  phone : String
  address : String
  business : OID
  items : List OrderLine
  total : Int
  note : String
  status : String
deriving DecidableEq, Repr

/-- The authenticated caller attached by the `auth` middleware: `req.user`
with its role populated (`roleId.slug`). -/
structure UserCtx where
  id : OID
  roleSlug : String
deriving DecidableEq, Repr

/-! ### Order controller (`createOrder`, `getOrder`) -/

/-- One entry of the request's `items` array.  `unitPrice` and `quantity`
are `none` when the JSON omits them (the JS `??` default then applies). -/
structure OrderLineReq where
  itemId : RawId
  unitPrice : Option Int
  quantity : Option Int
deriving DecidableEq, Repr

/-- The `createOrder` request body. -/
structure CreateOrderReq where
  name : String
  phone : String
  address : String
  businessId : RawId
  items : Option (List OrderLineReq)
  note : Option String
deriving DecidableEq, Repr

/-- Store visible to the order controller. -/
structure OrderStore where
  businesses : List BusinessDoc
  items : List ItemDoc
  orders : List OrderDoc
  nextId : OID
deriving DecidableEq, Repr

/-- The per-line loop of `createOrder`: validate each `item.itemId`, look the
item up, take `unitPrice = item.unitPrice ?? dbItem.price` and
`quantity = item.quantity ?? 1`, push the line and accumulate the total.
Errors are the `sendError` calls inside the loop. -/
def buildOrderLines (items : List ItemDoc) :
    List OrderLineReq → Except (Nat × String) (List OrderLine × Int)
  | [] => .ok ([], 0)
  | r :: rest =>
    match r.itemId with
    | none => .error (400, "Invalid Item ID format.")
    | some iid =>
      match items.find? (fun it => it.id == iid) with
      | none => .error (404, "Item not found")
      | some dbItem =>
        let unitPrice := r.unitPrice.getD dbItem.price
        let quantity := r.quantity.getD 1
        let itemTotal := unitPrice * quantity
        match buildOrderLines items rest with
        | .error e => .error e
        | .ok (ls, t) =>
          .ok ({ itemId := iid, unitPrice := unitPrice, quantity := quantity,
                 total := itemTotal } :: ls, itemTotal + t)

/-- `createOrder` from the order controller: required-field check, business
lookup and ownership gate, the line-building loop, then `new Order(...)` /
`save` with `status: "pending"` and `note: note || ""`.  The response data is
the saved document (the subsequent `populate` only expands references). -/
def createOrder (user : UserCtx) (req : CreateOrderReq) (s : OrderStore) :
    HResult OrderDoc × OrderStore :=
  if req.name = "" ∨ req.phone = "" ∨ req.address = "" ∨ req.businessId = none
      ∨ req.items = none ∨ req.items = some [] then
    (.error 400 "Missing required fields or empty items.", s)
  else
    match req.businessId with
    | none => (.error 400 "Invalid Business ID format.", s)
    | some bid =>
      match s.businesses.find? (fun b => b.id == bid) with
      | none => (.error 404 "Business not found.", s)
      | some business =>
        if business.userId ≠ user.id ∧ user.roleSlug ≠ "admin" then
          (.error 403 "You are not allowed to use this Business ID.", s)
        else
          match buildOrderLines s.items (req.items.getD []) with
          | .error (c, m) => (.error c m, s)
          | .ok (orderItems, total) =>
            let newOrder : OrderDoc :=
              { id := s.nextId, name := req.name, phone := req.phone,
                address := req.address, business := bid, items := orderItems,
                total := total, note := req.note.getD "",
                status := "pending" }
            (.success 201 "Order created successfully" newOrder,
             { s with orders := s.orders ++ [newOrder], nextId := s.nextId + 1 })

/-- `getOrder`: id validation, lookup, and the stored document is returned
as-is (the totals are read back, never recomputed). -/
def getOrder (rid : RawId) (s : OrderStore) : HResult OrderDoc :=
  match rid with
  | none => .error 400 "Invalid Order ID format."
  | some i =>
    match s.orders.find? (fun o => o.id == i) with
    | none => .error 404 "Order not found."
    | some o => .success 200 "Order fetched successfully" o

theorem buildOrderLines_totals (items : List ItemDoc) :
    ∀ (reqs : List OrderLineReq) (ls : List OrderLine) (t : Int),
      buildOrderLines items reqs = .ok (ls, t) →
      t = (ls.map (fun l => l.unitPrice * l.quantity)).sum ∧
        ∀ l ∈ ls, l.total = l.unitPrice * l.quantity := by
  intro reqs
  induction reqs with
  | nil =>
    intro ls t h
    simp only [buildOrderLines] at h
    cases h
    simp
  | cons r rest ih =>
    intro ls t h
    cases hid : r.itemId with
    | none =>
      simp only [buildOrderLines, hid] at h
      exact absurd h (by simp)
    | some iid =>
      cases hfind : items.find? (fun it => it.id == iid) with
      | none =>
        simp only [buildOrderLines, hid, hfind] at h
        exact absurd h (by simp)
      | some dbItem =>
        cases hrest : buildOrderLines items rest with
        | error e =>
          simp only [buildOrderLines, hid, hfind, hrest] at h
          exact absurd h (by simp)
        | ok p =>
          obtain ⟨ls', t'⟩ := p
          simp only [buildOrderLines, hid, hfind, hrest, Except.ok.injEq,
            Prod.mk.injEq] at h
          obtain ⟨hls, ht⟩ := h
          obtain ⟨ht', hall⟩ := ih ls' t' hrest
          subst hls ht ht'
          constructor
          · simp
          · intro l hl
            rcases List.mem_cons.mp hl with h | h
            · subst h; rfl
            · exact hall l h

theorem buildOrderLines_lines (items : List ItemDoc) :
    ∀ (reqs : List OrderLineReq) (ls : List OrderLine) (t : Int),
      buildOrderLines items reqs = .ok (ls, t) →
      List.Forall₂ (fun (r : OrderLineReq) (l : OrderLine) =>
        r.itemId = some l.itemId ∧
        ∃ dbItem, items.find? (fun it => it.id == l.itemId) = some dbItem ∧
          l.unitPrice = r.unitPrice.getD dbItem.price ∧
          l.quantity = r.quantity.getD 1) reqs ls := by
  intro reqs
  induction reqs with
  | nil =>
    intro ls t h
    simp only [buildOrderLines] at h
    cases h
    exact List.Forall₂.nil
  | cons r rest ih =>
    intro ls t h
    cases hid : r.itemId with
    | none =>
      simp only [buildOrderLines, hid] at h
      exact absurd h (by simp)
    | some iid =>
      cases hfind : items.find? (fun it => it.id == iid) with
      | none =>
        simp only [buildOrderLines, hid, hfind] at h
        exact absurd h (by simp)
      | some dbItem =>
        cases hrest : buildOrderLines items rest with
        | error e =>
          simp only [buildOrderLines, hid, hfind, hrest] at h
          exact absurd h (by simp)
        | ok p =>
          obtain ⟨ls', t'⟩ := p
          simp only [buildOrderLines, hid, hfind, hrest, Except.ok.injEq,
            Prod.mk.injEq] at h
          obtain ⟨hls, -⟩ := h
          subst hls
          exact List.Forall₂.cons ⟨hid, dbItem, hfind, rfl, rfl⟩ (ih ls' t' hrest)

/-- C1: for every order-create request that succeeds (in particular every
request with a non-empty items list whose referenced items all exist and
which passes the other guards), the persisted order's `total` is the sum of
`unitPrice × quantity` over its lines, each stored line's `total` is its
`unitPrice × quantity`, the order is stored, and a read (`getOrder`) only
returns a document verbatim from the store — the total is computed once at
creation, never recomputed on read. -/
theorem createOrder_persists_line_totals
    (user : UserCtx) (req : CreateOrderReq) (s : OrderStore)
    (c : Nat) (m : String) (o : OrderDoc) (s' : OrderStore)
    (h : createOrder user req s = (.success c m o, s')) :
    (o.total = (o.items.map (fun l => l.unitPrice * l.quantity)).sum ∧
      (∀ l ∈ o.items, l.total = l.unitPrice * l.quantity) ∧
      o ∈ s'.orders) ∧
    (∀ (rid : RawId) (c' : Nat) (m' : String) (o' : OrderDoc),
      getOrder rid s' = .success c' m' o' → o' ∈ s'.orders) := by
  constructor
  · unfold createOrder at h
    split at h
    · exact absurd h (by simp)
    · split at h
      · exact absurd h (by simp)
      · rename_i bid
        split at h
        · exact absurd h (by simp)
        · rename_i business hbfind
          split at h
          · exact absurd h (by simp)
          · split at h
            · exact absurd h (by simp)
            · rename_i orderItems total hlines
              simp only [Prod.mk.injEq, HResult.success.injEq] at h
              obtain ⟨⟨-, -, ho⟩, hs⟩ := h
              subst ho
              subst hs
              obtain ⟨ht, hall⟩ :=
                buildOrderLines_totals s.items (req.items.getD []) orderItems total hlines
              exact ⟨ht, hall, by simp⟩
  · intro rid c' m' o' h'
    unfold getOrder at h'
    split at h'
    · exact absurd h' (by simp)
    · rename_i i
      split at h'
      · exact absurd h' (by simp)
      · rename_i o0 hfind
        simp only [HResult.success.injEq] at h'
        obtain ⟨-, -, ho⟩ := h'
        subst ho
        exact List.mem_of_find?_eq_some hfind

/-- Demo fixtures for the order-controller witnesses. -/
def demoBusiness : BusinessDoc :=
  { id := 5, userId := 9, telegramId := 3, name := "Cafe", description := "d",
    location := "PP", logo := "l", image := "i", status := "active" }

def demoItemA : ItemDoc :=
  { id := 1, businessId := 5, categoryId := 7, name := "Noodles",
    description := "", price := 100, image := "a.png", meta := "",
    tags := [], status := "active" }

def demoItemB : ItemDoc :=
  { id := 2, businessId := 5, categoryId := 7, name := "Rice",
    description := "", price := 7, image := "b.png", meta := "",
    tags := [], status := "active" }

def demoOrderStore : OrderStore :=
  { businesses := [demoBusiness], items := [demoItemA, demoItemB],
    orders := [], nextId := 50 }

def demoUser : UserCtx := { id := 9, roleSlug := "user" }

def demoOrderReq : CreateOrderReq :=
  { name := "Bob", phone := "012", address := "PP", businessId := some 5,
    items := some [⟨some 1, some 10, some 2⟩, ⟨some 2, some 5, some 3⟩],
    note := none }

def demoCreatedOrder : OrderDoc :=
  { id := 50, name := "Bob", phone := "012", address := "PP", business := 5,
    items := [⟨1, 10, 2, 20⟩, ⟨2, 5, 3, 15⟩], total := 35, note := "",
    status := "pending" }

/-- Witness for C1: the spec's concrete instance — lines
`[{itemId: A, unitPrice: 10, quantity: 2}, {itemId: B, unitPrice: 5, quantity: 3}]`
persist with total 35 and line totals 20 and 15. -/
theorem createOrder_persists_line_totals_witness :
    (createOrder demoUser demoOrderReq demoOrderStore).1
        = .success 201 "Order created successfully" demoCreatedOrder ∧
    demoCreatedOrder.total = 35 ∧
    demoCreatedOrder.total
        = (demoCreatedOrder.items.map (fun l => l.unitPrice * l.quantity)).sum ∧
    (∀ l ∈ demoCreatedOrder.items, l.total = l.unitPrice * l.quantity) := by
  have h := createOrder_persists_line_totals demoUser demoOrderReq demoOrderStore
    201 "Order created successfully" demoCreatedOrder
    { demoOrderStore with orders := [demoCreatedOrder], nextId := 51 }
    (by decide)
  exact ⟨by decide, by decide, h.1.1, h.1.2.1⟩

/-- C9: in order creation each stored line's `unitPrice` is the
request-supplied value whenever the request supplies one (whatever it is,
regardless of the catalog price) and only defaults to the referenced item's
stored `price` when the request omits it; `quantity` likewise defaults to 1.
Stated via the `??`-defaults relation between the request lines and the
persisted lines of any successful create. -/
theorem createOrder_unitPrice_from_request
    (user : UserCtx) (req : CreateOrderReq) (s : OrderStore)
    (c : Nat) (m : String) (o : OrderDoc) (s' : OrderStore)
    (h : createOrder user req s = (.success c m o, s')) :
    List.Forall₂ (fun (r : OrderLineReq) (l : OrderLine) =>
      r.itemId = some l.itemId ∧
      ∃ dbItem, s.items.find? (fun it => it.id == l.itemId) = some dbItem ∧
        l.unitPrice = r.unitPrice.getD dbItem.price ∧
        l.quantity = r.quantity.getD 1) (req.items.getD []) o.items := by
  unfold createOrder at h
  split at h
  · exact absurd h (by simp)
  · split at h
    · exact absurd h (by simp)
    · rename_i bid
      split at h
      · exact absurd h (by simp)
      · rename_i business hbfind
        split at h
        · exact absurd h (by simp)
        · split at h
          · exact absurd h (by simp)
          · rename_i orderItems total hlines
            simp only [Prod.mk.injEq, HResult.success.injEq] at h
            obtain ⟨⟨-, -, ho⟩, -⟩ := h
            subst ho
            exact buildOrderLines_lines s.items (req.items.getD []) orderItems total hlines

/-- Request for the C9 witness: the first line supplies `unitPrice: 1`
(differing from the catalog price 100) and omits `quantity`; the second line
omits `unitPrice` (so the catalog price 7 applies) and supplies
`quantity: 4`. -/
def demoOrderReq2 : CreateOrderReq :=
  { name := "Ann", phone := "098", address := "SR", businessId := some 5,
    items := some [⟨some 1, some 1, none⟩, ⟨some 2, none, some 4⟩],
    note := some "x" }

def demoCreatedOrder2 : OrderDoc :=
  { id := 50, name := "Ann", phone := "098", address := "SR", business := 5,
    items := [⟨1, 1, 1, 1⟩, ⟨2, 7, 4, 28⟩], total := 29, note := "x",
    status := "pending" }

/-- Witness for C9: concretely, the client-supplied price 1 overrides the
catalog price 100, the omitted quantity defaults to 1, and the omitted
price falls back to the catalog price 7. -/
theorem createOrder_unitPrice_from_request_witness :
    (createOrder demoUser demoOrderReq2 demoOrderStore).1
        = .success 201 "Order created successfully" demoCreatedOrder2 ∧
    List.Forall₂ (fun (r : OrderLineReq) (l : OrderLine) =>
      r.itemId = some l.itemId ∧
      ∃ dbItem,
        demoOrderStore.items.find? (fun it => it.id == l.itemId) = some dbItem ∧
        l.unitPrice = r.unitPrice.getD dbItem.price ∧
        l.quantity = r.quantity.getD 1)
      (demoOrderReq2.items.getD []) demoCreatedOrder2.items ∧
    demoCreatedOrder2.items.map (fun l => l.unitPrice) = [1, 7] := by
  refine ⟨by decide, ?_, by decide⟩
  exact createOrder_unitPrice_from_request demoUser demoOrderReq2 demoOrderStore
    201 "Order created successfully" demoCreatedOrder2
    { demoOrderStore with orders := [demoCreatedOrder2], nextId := 51 }
    (by decide)

/-! ### The `ownerOrAdmin` middleware (alternate verify-middleware variant) -/

/-- Outcome of an Express middleware: a `sendError` response, a call to
`next()`, or — as `ownerOrAdmin` does on its fall-through path — returning
without responding and without calling `next` (the request is left hanging). -/
inductive MwResult where
  | errorR (statusCode : Nat) (message : String)
  | next
  | noResponse
deriving DecidableEq, Repr

/-- The `ownerOrAdmin` middleware as written: look up the caller's role
(404 when absent), then `if (role.slug === "admin" || user._id === id)`
respond 403 — the branch is inverted, so the 403 goes exactly to admins and
to the owner — and otherwise return without responding or calling `next()`.
The JS `user._id === id` compares an ObjectId object against a path string
(strictly always false in JS); it is modelled charitably as id equality,
which only enlarges the set of callers receiving the 403. -/
def ownerOrAdmin (roles : List RoleDoc) (user : UserDoc) (paramsId : OID) :
    MwResult :=
  match roles.find? (fun r => r.id == user.roleId) with
  | none => .errorR 404 "Role not found."
  | some role =>
    if role.slug = "admin" ∨ user.id = paramsId then
      .errorR 403 "Access denied. You are not authorized to access this resource."
    else
      .noResponse

/-- C2: the claim says a caller with the admin role slug never receives a
403 from the owner-or-admin check.  The middleware does the opposite: an
admin-role caller always gets the 403, and no caller at all is ever passed
through to the handler (`next` is unreachable). -/
theorem ownerOrAdmin_forbids_admin
    (roles : List RoleDoc) (user : UserDoc) (paramsId : OID) (role : RoleDoc)
    (hfind : roles.find? (fun r => r.id == user.roleId) = some role)
    (hadmin : role.slug = "admin") :
    ownerOrAdmin roles user paramsId
        = .errorR 403 "Access denied. You are not authorized to access this resource." ∧
    ∀ (roles' : List RoleDoc) (user' : UserDoc) (pid : OID),
      ownerOrAdmin roles' user' pid ≠ .next := by
  constructor
  · unfold ownerOrAdmin
    rw [hfind]
    simp [hadmin]
  · intro roles' user' pid
    unfold ownerOrAdmin
    split
    · simp
    · split <;> simp

def demoAdminRole : RoleDoc :=
  { id := 1, name := "Admin", slug := "admin", description := "",
    status := "active", createdAt := 0 }

def demoAdminUser : UserDoc :=
  { id := 9, name := "Root", username := "root", email := "root@x.co",
    password := ⟨0, "secret"⟩, roleId := 1, createdAt := 0 }

/-- Witness for C2's failing input: the admin caller is sent the 403. -/
theorem ownerOrAdmin_forbids_admin_witness :
    ownerOrAdmin [demoAdminRole] demoAdminUser 42
        = .errorR 403 "Access denied. You are not authorized to access this resource." :=
  (ownerOrAdmin_forbids_admin [demoAdminRole] demoAdminUser 42 demoAdminRole
    (by decide) (by decide)).1

/-! ### Category deletion (`deleteCategory`, two variants) -/

/-- Store visible to the category controller. -/
structure CategoryStore where
  categories : List CategoryDoc
  businesses : List BusinessDoc
deriving DecidableEq, Repr

/-- `deleteCategory` from `category.controller.js`: validate the id, load
the category (404 when absent), then `Business.findById(category.businessId)`
— where `businessId` is not even a path of the category schema, so the
lookup runs on `undefined` and yields `null` — and then the permission
check reads `userId` and `userRole`, identifiers that are never bound
anywhere in this function's scope.  In JS the first access,
`userId.toString()`, throws a ReferenceError, which the surrounding
`try/catch` forwards to `next(error)` — rendered by the process-wide 500
fallback.  The throw happens before `findByIdAndDelete`, so the store is
untouched and no event is broadcast, for every caller. -/
def deleteCategory (_user : UserCtx) (rid : RawId) (s : CategoryStore) :
    HResult Unit × CategoryStore × List (String × OID) :=
  match rid with
  | none => (.error 400 "Invalid category ID format", s, [])
  | some i =>
    match s.categories.find? (fun x => x.id == i) with
    | none => (.error 404 "Category not found", s, [])
    | some _ => (.serverError, s, [])

/-- `deleteCategory` from the alternate category controller (part_005 of
the sources): `findByIdAndDelete` immediately — no ownership check of any
kind (the function does not even read `req.user`) — then the
`categoryDeleted` broadcast carrying the id, and success. -/
def deleteCategoryAlt (rid : RawId) (s : CategoryStore) :
    HResult Unit × CategoryStore × List (String × OID) :=
  match rid with
  | none => (.error 400 "Invalid category ID format", s, [])
  | some i =>
    match s.categories.find? (fun x => x.id == i) with
    | none => (.error 404 "Category not found", s, [])
    | some _ =>
      (.success 200 "Category deleted successfully" (),
       { s with categories := s.categories.filter (fun x => x.id ≠ i) },
       [("categoryDeleted", i)])

/-- C3: the claim describes an ownership check before the hard delete
(403 and no deletion for strangers; delete + `categoryDeleted` broadcast +
success for owner or admin).  Neither variant implements it: the primary
handler ends in the 500 fallback for every caller — owner and admin
included — with the category still stored and nothing broadcast, and the
alternate handler deletes for every caller with no permission check at
all. -/
theorem deleteCategory_no_ownership_check
    (user : UserCtx) (i : OID) (s : CategoryStore) (c : CategoryDoc)
    (hfind : s.categories.find? (fun x => x.id == i) = some c) :
    deleteCategory user (some i) s = (.serverError, s, []) ∧
    deleteCategoryAlt (some i) s
        = (.success 200 "Category deleted successfully" (),
           { s with categories := s.categories.filter (fun x => x.id ≠ i) },
           [("categoryDeleted", i)]) := by
  constructor
  · simp only [deleteCategory, hfind]
  · simp only [deleteCategoryAlt, hfind]

def demoCategory : CategoryDoc :=
  { id := 30, name := "Drinks", slug := "drinks",
    description := "", status := "active" }

def demoCategoryStore : CategoryStore :=
  { categories := [demoCategory], businesses := [demoBusiness] }

/-- Witness for C3's failing input: an admin caller deleting an existing
category gets the 500 fallback from the primary handler (category retained,
no broadcast), while the alternate handler deletes it for a caller who owns
nothing. -/
theorem deleteCategory_no_ownership_check_witness :
    deleteCategory ⟨1, "admin"⟩ (some 30) demoCategoryStore
        = (.serverError, demoCategoryStore, []) ∧
    (deleteCategoryAlt (some 30) demoCategoryStore).1
        = .success 200 "Category deleted successfully" () ∧
    (deleteCategoryAlt (some 30) demoCategoryStore).2.1.categories = [] := by
  have h := deleteCategory_no_ownership_check ⟨1, "admin"⟩ 30 demoCategoryStore
    demoCategory (by decide)
  exact ⟨h.1, by rw [h.2], by rw [h.2]; decide⟩

/-! ### Business controller (`createBusiness`, `updateBusiness`) -/

/-- C4 counterexample: a create that references a messaging contact owned
by a *different* user succeeds, and the business is persisted with that
foreign reference — the claim says it must fail with an error response. -/
def demoUserA : UserDoc :=
  { id := 1, name := "A", username := "a", email := "a@x.co",
    password := ⟨0, "pa"⟩, roleId := 2, createdAt := 0 }

/-- A calendar date, months 1–12. -/
structure Date where
  year : Nat
  month : Nat
  day : Nat
deriving DecidableEq, Repr

def isLeap (y : Nat) : Bool :=
  (y % 4 == 0 && y % 100 != 0) || y % 400 == 0

def daysInMonth (y m : Nat) : Nat :=
  if m = 2 then (if isLeap y then 29 else 28)
  else if m = 4 ∨ m = 6 ∨ m = 9 ∨ m = 11 then 30
  else 31

/-- JS `endDate.setMonth(endDate.getMonth() + k)`: the month index
normalises with rollover into the year, and a day-of-month beyond the
target month's length rolls into the following month (one carry suffices:
the excess is at most 31 − 28 = 3). -/
def setMonthAdd (d : Date) (k : Nat) : Date :=
  if d.day ≤ daysInMonth (d.year + ((d.month - 1) + k) / 12) (((d.month - 1) + k) % 12 + 1) then
    ⟨d.year + ((d.month - 1) + k) / 12, ((d.month - 1) + k) % 12 + 1, d.day⟩
  else if ((d.month - 1) + k) % 12 + 1 = 12 then
    ⟨d.year + ((d.month - 1) + k) / 12 + 1, 1,
     d.day - daysInMonth (d.year + ((d.month - 1) + k) / 12) 12⟩
  else
    ⟨d.year + ((d.month - 1) + k) / 12, ((d.month - 1) + k) % 12 + 2,
     d.day - daysInMonth (d.year + ((d.month - 1) + k) / 12)
        (((d.month - 1) + k) % 12 + 1)⟩

/-- The claim's reading of "startDate plus the plan's duration in months":
same day-of-month, month index shifted by `k`. -/
def monthsLater (d : Date) (k : Nat) : Date :=
  ⟨d.year + ((d.month - 1) + k) / 12, ((d.month - 1) + k) % 12 + 1, d.day⟩

theorem setMonthAdd_eq_monthsLater (d : Date) (k : Nat)
    (h : d.day ≤ daysInMonth (monthsLater d k).year (monthsLater d k).month) :
    setMonthAdd d k = monthsLater d k := by
  unfold setMonthAdd monthsLater
  simp only [monthsLater] at h
  rw [if_pos h]

/-- `subscriptionPlan.model.js` (part_001 of the sources), restricted to
the fields the embedded operations read. -/
structure SubscriptionPlanDoc where
  id : OID
  name : String
  slug : String
  price : Int
  duration : Int
  status : String
deriving DecidableEq, Repr

/-- `userSubscriptionPlan.model.js`. -/
structure UserSubDoc where
  id : OID
  userId : OID
  subscriptionPlanId : OID
  startDate : Date
  endDate : Date
  status : String
deriving DecidableEq, Repr

/-- Store visible to the user-subscription-plan controller. -/
structure SubStore where
  users : List UserDoc
  plans : List SubscriptionPlanDoc
  subs : List UserSubDoc
  nextId : OID
deriving DecidableEq, Repr

/-- `createUserSubscriptionPlan` request body (`new Date(startDate)` is
modelled as an already-parsed calendar date). -/
structure CreateUserSubReq where
  userId : RawId
  subscriptionPlanId : RawId
  startDate : Option Date
  status : Option String
deriving DecidableEq, Repr

/-- `createUserSubscriptionPlan`: required fields, user and plan lookups,
the positive-duration guard, `endDate = startDate.setMonth(+duration)`,
then the `findOne({userId, status: "active"})` conflict check — which runs
before `save`, so a 409 leaves the store untouched.  The stored status is
`status || "active"`, and `save` validates it against the schema's enum
{active, expired, cancelled} (`userSubscriptionPlan.model.js`): an invalid
supplied status raises a ValidationError, forwarded to the 500 fallback,
with nothing persisted. -/
def createUserSubscriptionPlan (req : CreateUserSubReq) (s : SubStore) :
    HResult UserSubDoc × SubStore :=
  match req.userId with
  | none => (.error 400 "User ID is required.", s)
  | some uid =>
    match req.subscriptionPlanId with
    | none => (.error 400 "Subscription Plan ID is required.", s)
    | some pid =>
      match req.startDate with
      | none => (.error 400 "Start Date is required.", s)
      | some start =>
        match s.users.find? (fun u => u.id == uid) with
        | none => (.error 404 "User not found.", s)
        | some _ =>
          match s.plans.find? (fun p => p.id == pid) with
          | none => (.error 404 "Subscription Plan not found.", s)
          | some plan =>
            if plan.duration ≤ 0 then
              (.error 400 "Invalid subscription plan duration.", s)
            else
              match s.subs.find?
                  (fun u => u.userId == uid && u.status == "active") with
              | some _ =>
                (.error 409 "User already has an active subscription plan.", s)
              | none =>
                if (if truthyS req.status then req.status.getD "" else "active")
                    ∉ (["active", "expired", "cancelled"] : List String) then
                  (.serverError, s)
                else
                  let newSub : UserSubDoc :=
                    { id := s.nextId, userId := uid, subscriptionPlanId := pid,
                      startDate := start,
                      endDate := setMonthAdd start plan.duration.toNat,
                      status := if truthyS req.status then req.status.getD ""
                          else "active" }
                  (.success 201 "User subscription plan created successfully"
                    newSub,
                   { s with subs := s.subs ++ [newSub], nextId := s.nextId + 1 })

/-- C5: with an existing user, an existing plan of positive duration and a
start date, (a) when the user has no active subscription and the supplied
status (or its default `"active"`) passes the schema enum, the create
succeeds, stores the record, and derives `endDate` as the start date plus
the plan's duration in months (exactly, whenever the start day exists in
the target month — `setMonth` rolls an overflowing day over); (b) when an
active subscription for that user already exists, the create responds 409
Conflict and the store is unchanged. -/
theorem createUserSubscriptionPlan_endDate_and_conflict
    (req : CreateUserSubReq) (s : SubStore) (uid pid : OID) (start : Date)
    (plan : SubscriptionPlanDoc)
    (huid : req.userId = some uid) (hpid : req.subscriptionPlanId = some pid)
    (hstart : req.startDate = some start)
    (huser : (s.users.find? (fun u => u.id == uid)).isSome)
    (hplan : s.plans.find? (fun p => p.id == pid) = some plan)
    (hdur : 0 < plan.duration) :
    (s.subs.find? (fun u => u.userId == uid && u.status == "active") = none →
      (if truthyS req.status then req.status.getD "" else "active")
          ∈ (["active", "expired", "cancelled"] : List String) →
      ∃ u s', createUserSubscriptionPlan req s
          = (.success 201 "User subscription plan created successfully" u, s') ∧
        u.startDate = start ∧
        u.endDate = setMonthAdd start plan.duration.toNat ∧
        (start.day ≤ daysInMonth (monthsLater start plan.duration.toNat).year
            (monthsLater start plan.duration.toNat).month →
          u.endDate = monthsLater start plan.duration.toNat) ∧
        u ∈ s'.subs) ∧
    (∀ sub0, s.subs.find? (fun u => u.userId == uid && u.status == "active")
        = some sub0 →
      createUserSubscriptionPlan req s
        = (.error 409 "User already has an active subscription plan.", s)) := by
  obtain ⟨udoc, hufind⟩ := Option.isSome_iff_exists.mp huser
  constructor
  · intro hnone hstatok
    have h1 : (createUserSubscriptionPlan req s).1
        = .success 201 "User subscription plan created successfully"
            { id := s.nextId, userId := uid, subscriptionPlanId := pid,
              startDate := start,
              endDate := setMonthAdd start plan.duration.toNat,
              status := if truthyS req.status then req.status.getD ""
                  else "active" } := by
      simp only [createUserSubscriptionPlan, huid, hpid, hstart, hufind,
        hplan, hnone]
      rw [if_neg (by omega), if_neg (fun hn => hn hstatok)]
    have h2 : (createUserSubscriptionPlan req s).2.subs
        = s.subs ++
          [{ id := s.nextId, userId := uid, subscriptionPlanId := pid,
             startDate := start,
             endDate := setMonthAdd start plan.duration.toNat,
             status := if truthyS req.status then req.status.getD ""
                 else "active" }] := by
      simp only [createUserSubscriptionPlan, huid, hpid, hstart, hufind,
        hplan, hnone]
      rw [if_neg (by omega), if_neg (fun hn => hn hstatok)]
    refine ⟨_, (createUserSubscriptionPlan req s).2,
      Prod.ext_iff.mpr ⟨h1, rfl⟩, rfl, rfl, ?_, ?_⟩
    · intro hday
      exact setMonthAdd_eq_monthsLater start plan.duration.toNat hday
    · rw [h2]; simp
  · intro sub0 hsome
    simp only [createUserSubscriptionPlan, huid, hpid, hstart, hufind,
      hplan, hsome]
    rw [if_neg (by omega)]

def demoPlan : SubscriptionPlanDoc :=
  { id := 2, name := "Premium", slug := "premium", price := 19,
    duration := 3, status := "active" }

def demoSubStore : SubStore :=
  { users := [demoUserA], plans := [demoPlan], subs := [], nextId := 90 }

def demoExistingActiveSub : UserSubDoc :=
  { id := 88, userId := 1, subscriptionPlanId := 2,
    startDate := ⟨2025, 1, 1⟩, endDate := ⟨2025, 4, 1⟩, status := "active" }

def demoSubStoreBusy : SubStore :=
  { demoSubStore with subs := [demoExistingActiveSub] }

def demoSubReq : CreateUserSubReq :=
  { userId := some 1, subscriptionPlanId := some 2,
    startDate := some ⟨2025, 2, 1⟩, status := none }

/-- Witness for C5: duration 3 from 2025-02-01 derives 2025-05-01, and the
same request against a store already holding an active subscription for
user 1 yields the 409 with the store unchanged. -/
theorem createUserSubscriptionPlan_endDate_and_conflict_witness :
    (∃ u s', createUserSubscriptionPlan demoSubReq demoSubStore
        = (.success 201 "User subscription plan created successfully" u, s') ∧
      u.endDate = ⟨2025, 5, 1⟩) ∧
    createUserSubscriptionPlan demoSubReq demoSubStoreBusy
      = (.error 409 "User already has an active subscription plan.",
         demoSubStoreBusy) := by
  constructor
  · obtain ⟨u, s', hrun, -, hend, hcal, -⟩ :=
      (createUserSubscriptionPlan_endDate_and_conflict demoSubReq demoSubStore
        1 2 ⟨2025, 2, 1⟩ demoPlan rfl rfl rfl (by decide) (by decide)
        (by decide)).1 (by decide) (by decide)
    exact ⟨u, s', hrun, by rw [hcal (by decide)]; decide⟩
  · exact (createUserSubscriptionPlan_endDate_and_conflict demoSubReq
      demoSubStoreBusy 1 2 ⟨2025, 2, 1⟩ demoPlan rfl rfl rfl (by decide)
      (by decide) (by decide)).2 demoExistingActiveSub (by decide)

/-! ### Auth (`signup`, `signin`) -/

/-- The user payload as serialised into a response body.  `password` is a
regular field of the stored document (the schema has no `select: false`),
so it appears in the JSON unless the handler strips it with
`const { password, ...rest } = user._doc`. -/
structure UserView where
  id : OID
  name : String
  username : String
  email : String
  password : Option BHash
  roleId : OID
deriving DecidableEq, Repr

/-- The full document as returned by `findById(...).populate("roleId")`:
the password ships with it. -/
def viewFull (u : UserDoc) : UserView :=
  ⟨u.id, u.name, u.username, u.email, some u.password, u.roleId⟩

/-- The `...rest` spread after destructuring `password` out. -/
def viewNoPassword (u : UserDoc) : UserView :=
  ⟨u.id, u.name, u.username, u.email, none, u.roleId⟩

/-- Model of `jwt.sign({userId}, secret)`. -/
def jwtSign (uid : OID) : String := "token-" ++ toString uid

/-- Model of `bcrypt.hash(pw, 10)`; the fresh salt is abstracted by the
rounds argument. -/
def bcryptHash (pw : String) (rounds : Nat) : BHash := ⟨rounds, pw⟩

/-- Store visible to the auth controller. -/
structure AuthStore where
  users : List UserDoc
  roles : List RoleDoc
  nextId : OID
deriving DecidableEq, Repr

structure SigninReq where
  usernameOrEmail : Option String
  password : Option String
deriving DecidableEq, Repr

/-- `signin` from `auth.controller.js`: required-field checks, lookup by
email when the credential contains `@` and by username otherwise, the
bcrypt comparison (409 on mismatch), then the response ships
`populatedUser` — the full stored document, password included (unlike
`signup`, nothing is destructured out). -/
def signin (req : SigninReq) (s : AuthStore) : HResult (UserView × String) :=
  if ¬ truthyS req.usernameOrEmail then .error 400 "Username/Email is required."
  else if ¬ truthyS req.password then .error 400 "Password is required."
  else
    match (if (req.usernameOrEmail.getD "").data.contains '@' then
        s.users.find? (fun u => u.email == req.usernameOrEmail.getD "")
      else
        s.users.find? (fun u => u.username == req.usernameOrEmail.getD "")) with
    | none => .error 404 "User not found."
    | some user =>
      if ¬ bcryptCompare (req.password.getD "") user.password then
        .error 409 "Invalid password."
      else
        .success 200 "User signed in successfully"
          (viewFull user, jwtSign user.id)

structure SignupReq where
  name : Option String
  username : Option String
  email : Option String
  password : Option String
deriving DecidableEq, Repr

/-- `signup` from `auth.controller.js`: required fields and uniqueness
pre-checks, the `user` role lookup, hash, save — and the response user is
`rest` after `const { password: pass, ...rest } = populatedUser._doc`,
i.e. the password is stripped. -/
def signup (req : SignupReq) (s : AuthStore) :
    HResult (UserView × String) × AuthStore :=
  if ¬ truthyS req.name then (.error 400 "Name is required.", s)
  else if ¬ truthyS req.username then (.error 400 "Username is required.", s)
  else if (s.users.find?
      (fun u => u.username == req.username.getD "")).isSome then
    (.error 409 "Username already exists.", s)
  else if ¬ truthyS req.email then (.error 400 "Email is required.", s)
  else if (s.users.find? (fun u => u.email == req.email.getD "")).isSome then
    (.error 409 "Email already exists.", s)
  else if ¬ truthyS req.password then (.error 400 "Password is required.", s)
  else
    match s.roles.find? (fun r => r.slug == "user") with
    | none => (.error 404 "Role not found.", s)
    | some role =>
      let newUser : UserDoc :=
        { id := s.nextId, name := req.name.getD "",
          username := req.username.getD "", email := req.email.getD "",
          password := bcryptHash (req.password.getD "") 10,
          roleId := role.id, createdAt := 0 }
      ((.success 201 "User created successfully"
          (viewNoPassword newUser, jwtSign newUser.id)),
       { s with users := s.users ++ [newUser], nextId := s.nextId + 1 })

def demoAuthRoles : List RoleDoc :=
  [{ id := 2, name := "User", slug := "user", description := "",
     status := "active", createdAt := 0 }]

def demoAliceSalt1 : UserDoc :=
  { id := 1, name := "Alice", username := "alice", email := "alice@x.co",
    password := ⟨1, "pw123456"⟩, roleId := 2, createdAt := 0 }

def demoAliceSalt2 : UserDoc :=
  { id := 1, name := "Alice", username := "alice", email := "alice@x.co",
    password := ⟨2, "pw123456"⟩, roleId := 2, createdAt := 0 }

def demoAuthStore1 : AuthStore :=
  { users := [demoAliceSalt1], roles := demoAuthRoles, nextId := 12 }

def demoAuthStore2 : AuthStore :=
  { users := [demoAliceSalt2], roles := demoAuthRoles, nextId := 12 }

/-- Counterexample to C6: the sign-in response carries the stored hashed
password (the payload's `password` field is present), so two stored states
that differ only in the user's password hash produce different sign-in
responses — the password value flows into the response body. -/
theorem signin_response_contains_password_hash :
    signin ⟨some "alice", some "pw123456"⟩ demoAuthStore1
        = .success 200 "User signed in successfully"
            (viewFull demoAliceSalt1, jwtSign 1) ∧
    (viewFull demoAliceSalt1).password = some ⟨1, "pw123456"⟩ ∧
    signin ⟨some "alice", some "pw123456"⟩ demoAuthStore1
        ≠ signin ⟨some "alice", some "pw123456"⟩ demoAuthStore2 := by
  refine ⟨by decide, by decide, by decide⟩

/-- C6 amended: the sign-up (and OAuth) handlers strip the password before
responding, but the sign-in handler returns the stored document verbatim:
every successful sign-in response carries `some` stored user's hashed
password, while every successful sign-up response has no password field. -/
theorem signin_exposes_signup_strips_password
    (req : SigninReq) (s : AuthStore) (c : Nat) (m : String)
    (v : UserView) (tok : String)
    (h : signin req s = .success c m (v, tok)) :
    (∃ u ∈ s.users, v = viewFull u ∧ v.password = some u.password) ∧
    ∀ (req2 : SignupReq) (s2 : AuthStore) (c2 : Nat) (m2 : String)
      (v2 : UserView) (tok2 : String) (s2' : AuthStore),
      signup req2 s2 = (.success c2 m2 (v2, tok2), s2') →
      v2.password = none := by
  constructor
  · unfold signin at h
    split at h
    · exact absurd h (by simp)
    · split at h
      · exact absurd h (by simp)
      · split at h
        · exact absurd h (by simp)
        · rename_i user hfind
          split at h
          · exact absurd h (by simp)
          · simp only [HResult.success.injEq, Prod.mk.injEq] at h
            obtain ⟨-, -, hv, -⟩ := h
            subst hv
            refine ⟨user, ?_, rfl, rfl⟩
            split at hfind
            · exact List.mem_of_find?_eq_some hfind
            · exact List.mem_of_find?_eq_some hfind
  · intro req2 s2 c2 m2 v2 tok2 s2' h2
    unfold signup at h2
    split at h2
    · exact absurd h2 (by simp)
    · split at h2
      · exact absurd h2 (by simp)
      · split at h2
        · exact absurd h2 (by simp)
        · split at h2
          · exact absurd h2 (by simp)
          · split at h2
            · exact absurd h2 (by simp)
            · split at h2
              · exact absurd h2 (by simp)
              · split at h2
                · exact absurd h2 (by simp)
                · simp only [Prod.mk.injEq, HResult.success.injEq] at h2
                  obtain ⟨⟨-, -, hv2, -⟩, -⟩ := h2
                  subst hv2
                  rfl

def demoBobUser : UserDoc :=
  { id := 12, name := "Bob", username := "bob", email := "bob@x.co",
    password := ⟨10, "pw123456"⟩, roleId := 2, createdAt := 0 }

/-- Witness for the amended C6: the concrete sign-in exposes Alice's stored
hash; a concrete sign-up responds with no password field. -/
theorem signin_exposes_signup_strips_password_witness :
    (∃ u ∈ demoAuthStore1.users,
      viewFull demoAliceSalt1 = viewFull u ∧
      (viewFull demoAliceSalt1).password = some u.password) ∧
    ∀ v2 : UserView,
      (signup ⟨some "Bob", some "bob", some "bob@x.co", some "pw123456"⟩
          demoAuthStore1).1
        = .success 201 "User created successfully" (v2, jwtSign 12) →
      v2.password = none := by
  have h := signin_exposes_signup_strips_password
    ⟨some "alice", some "pw123456"⟩ demoAuthStore1 200
    "User signed in successfully" (viewFull demoAliceSalt1) (jwtSign 1)
    (by decide)
  refine ⟨h.1, ?_⟩
  intro v2 h2
  have hrun : (signup ⟨some "Bob", some "bob", some "bob@x.co",
      some "pw123456"⟩ demoAuthStore1).1
      = .success 201 "User created successfully"
          (viewNoPassword demoBobUser, jwtSign 12) := by decide
  rw [hrun] at h2
  simp only [HResult.success.injEq, Prod.mk.injEq] at h2
  obtain ⟨-, -, hv2, -⟩ := h2
  rw [← hv2]
  rfl

/-! ### List queries (`getRoles`, `getUserSubscriptionPlans`) -/

/-- Structural prefix test on character lists. -/
def isPrefixL : List Char → List Char → Bool
  | [], _ => true
  | _ :: _, [] => false
  | a :: as, b :: bs => a == b && isPrefixL as bs

/-- Structural substring test on character lists. -/
def containsSub : List Char → List Char → Bool
  | [], n => n.isEmpty
  | h :: t, n => isPrefixL n (h :: t) || containsSub t n

/-- Model of `new RegExp(search, "i")` matching a field, for a
metacharacter-free pattern: case-insensitive substring containment. -/
def containsCI (hay needle : String) : Bool :=
  containsSub (hay.data.map Char.toLower) (needle.data.map Char.toLower)

/-- Insertion into a sorted list, keeping the inserted element in front of
ties (stable). -/
def insertBy {α : Type} (le : α → α → Bool) (a : α) : List α → List α
  | [] => [a]
  | b :: bs => if le a b then a :: b :: bs else b :: insertBy le a bs

/-- Stable insertion sort; models the store's `.sort({field: dir})`. -/
def sortedBy {α : Type} (le : α → α → Bool) : List α → List α
  | [] => []
  | a :: rest => insertBy le a (sortedBy le rest)

theorem insertBy_perm {α : Type} (le : α → α → Bool) (a : α) :
    ∀ l : List α, (insertBy le a l).Perm (a :: l) := by
  intro l
  induction l with
  | nil => simp [insertBy]
  | cons b bs ih =>
    simp only [insertBy]
    split
    · exact List.Perm.refl _
    · exact (ih.cons b).trans (List.Perm.swap a b bs)

theorem sortedBy_perm {α : Type} (le : α → α → Bool) :
    ∀ l : List α, (sortedBy le l).Perm l := by
  intro l
  induction l with
  | nil => simp [sortedBy]
  | cons a rest ih =>
    simp only [sortedBy]
    exact (insertBy_perm le a (sortedBy le rest)).trans (ih.cons a)

/-- Lexicographic order on character lists (String comparison). -/
def charListLe : List Char → List Char → Bool
  | [], _ => true
  | _ :: _, [] => false
  | a :: as, b :: bs =>
    decide (a.toNat < b.toNat) || (a == b && charListLe as bs)

/-- Ascending comparator for `Role.find(...).sort({[sort]: dir})`: the
three string fields compare lexicographically, anything else — including
the default `createdAt` — by the creation timestamp. -/
def roleLeAsc (field : String) (a b : RoleDoc) : Bool :=
  match field with
  | "name" => charListLe a.name.data b.name.data
  | "slug" => charListLe a.slug.data b.slug.data
  | "description" => charListLe a.description.data b.description.data
  | _ => decide (a.createdAt ≤ b.createdAt)

def roleLe (field ord : String) (a b : RoleDoc) : Bool :=
  if ord == "desc" then roleLeAsc field b a else roleLeAsc field a b

def sortRoles (field ord : String) (l : List RoleDoc) : List RoleDoc :=
  sortedBy (roleLe field ord) l

/-- JS `ToNumber` restricted to the shapes that reach it in these
controllers: a non-empty string of decimal digits parses, everything else
is NaN (`none`). -/
def digitsVal (cs : List Char) : Nat :=
  cs.foldl (fun acc ch => acc * 10 + (ch.toNat - 48)) 0

def jsToNumber (s : String) : Option Int :=
  if s.data ≠ [] ∧ s.data.all Char.isDigit then
    some (Int.ofNat (digitsVal s.data))
  else none

/-- JS `parseInt(s, 10)`: an optional sign, then the longest leading digit
run; NaN when there is none (leading whitespace and radix prefixes are not
modelled — no caller here sends them). -/
def parseIntJS (s : String) : Option Int :=
  match s.data with
  | '-' :: rest =>
    if (rest.takeWhile Char.isDigit).isEmpty then none
    else some (-(Int.ofNat (digitsVal (rest.takeWhile Char.isDigit))))
  | cs =>
    if (cs.takeWhile Char.isDigit).isEmpty then none
    else some (Int.ofNat (digitsVal (cs.takeWhile Char.isDigit)))

/-- The `{total, page, limit, data}` payload of every list response. -/
structure ListPayload (α : Type) where
  total : Nat
  page : Option Int
  limit : Option Int
  data : List α
deriving DecidableEq, Repr

/-- The raw query string parameters of `getRoles`. -/
structure ListQuery where
  page : Option String
  limit : Option String
  sort : Option String
  order : Option String
  search : Option String
deriving DecidableEq, Repr

/-- The `$or`-of-regexes search filter of `getRoles` (skipped when
`search` is falsy, i.e. absent or empty). -/
def rolesMatching (search : Option String) (s : List RoleDoc) : List RoleDoc :=
  if ¬ truthyS search then s
  else s.filter (fun r =>
    containsCI r.name (search.getD "") || containsCI r.slug (search.getD "")
      || containsCI r.description (search.getD ""))

/-- Mongo cursor `.limit(l)`: 0 means no limit, a negative value acts as
its absolute value (single batch). -/
def applyLimit {α : Type} (l : Int) (xs : List α) : List α :=
  if l = 0 then xs else xs.take l.natAbs

/-- `getRoles`: `page` and `limit` are the raw query strings; the
destructuring defaults 1 and 10 apply only when the parameter is absent,
and `skip = (page - 1) * limit` coerces them with JS arithmetic — a
non-numeric value makes the skip NaN.  The MongoDB server rejects a NaN or
negative skip (and a NaN limit), and the controller's catch forwards that
to the process-wide 500 fallback (`.serverError`): there is no fallback to
the defaults.  `total` is `countDocuments` over the same filter, not
affected by the cursor. -/
def getRoles (q : ListQuery) (s : List RoleDoc) : HResult (ListPayload RoleDoc) :=
  match (match q.page with | none => some (1 : Int) | some str => jsToNumber str),
        (match q.limit with | none => some (10 : Int) | some str => jsToNumber str) with
  | some p, some l =>
    if (p - 1) * l < 0 then .serverError
    else
      .success 200 "Roles fetched successfully"
        { total := (rolesMatching q.search s).length,
          page := some p, limit := some l,
          data := applyLimit l
            ((sortRoles (q.sort.getD "createdAt") (q.order.getD "desc")
                (rolesMatching q.search s)).drop ((p - 1) * l).toNat) }
  | _, _ => .serverError

/-- C7: for numeric `page ≥ 1` and `limit ≥ 1`, the role list returns
exactly the slice of the sorted filtered records at offset
`(page − 1) × limit` of length at most `limit` — precisely
`min limit (n − offset)` records where `n` is the number of records
matching the filter — and `total` equals `n`, whatever the page and limit
are. -/
theorem getRoles_pagination
    (s : List RoleDoc) (p l : Int) (ps ls : String)
    (sortF orderF searchF : Option String)
    (hp : 1 ≤ p) (hl : 1 ≤ l)
    (hps : jsToNumber ps = some p) (hls : jsToNumber ls = some l) :
    ∃ arr : List RoleDoc,
      arr.Perm (rolesMatching searchF s) ∧
      getRoles ⟨some ps, some ls, sortF, orderF, searchF⟩ s
        = .success 200 "Roles fetched successfully"
            { total := (rolesMatching searchF s).length,
              page := some p, limit := some l,
              data := (arr.drop ((p - 1) * l).toNat).take l.toNat } ∧
      ((arr.drop ((p - 1) * l).toNat).take l.toNat).length
        = min l.toNat ((rolesMatching searchF s).length - ((p - 1) * l).toNat) := by
  refine ⟨sortRoles (sortF.getD "createdAt") (orderF.getD "desc")
    (rolesMatching searchF s), sortedBy_perm _ _, ?_, ?_⟩
  · simp only [getRoles, hps, hls]
    rw [if_neg (by
      have hmul : (0 : Int) ≤ (p - 1) * l :=
        mul_nonneg (by omega) (by omega)
      omega)]
    have hl0 : l ≠ 0 := by omega
    have hln : l.natAbs = l.toNat := by omega
    simp [applyLimit, hl0, hln]
  · have hperm := sortedBy_perm
      (roleLe (sortF.getD "createdAt") (orderF.getD "desc"))
      (rolesMatching searchF s)
    rw [List.length_take, List.length_drop]
    unfold sortRoles
    rw [hperm.length_eq]

def demoRoleAt (k : Nat) : RoleDoc :=
  { id := k, name := "Role", slug := "role", description := "",
    status := "active", createdAt := k }

def demoRoles15 : List RoleDoc := (List.range 15).map demoRoleAt

/-- Witness for C7: the spec's instance — page 2, limit 10 on a 15-record
set returns exactly 5 records, and `total` is 15. -/
theorem getRoles_pagination_witness :
    ∃ payload, getRoles ⟨some "2", some "10", none, none, none⟩ demoRoles15
        = .success 200 "Roles fetched successfully" payload ∧
      payload.total = 15 ∧ payload.data.length = 5 := by
  obtain ⟨arr, hperm, hrun, hlen⟩ := getRoles_pagination demoRoles15 2 10
    "2" "10" none none none (by decide) (by decide) (by decide) (by decide)
  refine ⟨_, hrun, ?_, ?_⟩
  · show (rolesMatching none demoRoles15).length = 15
    decide
  · show ((arr.drop (((2 : Int) - 1) * 10).toNat).take (10 : Int).toNat).length = 5
    rw [hlen]
    decide

/-- Counterexample to C8: `getRoles` does not fall back to the defaults on
a non-numeric `page` — the NaN skip makes the request fail through the 500
fallback, so the response differs from the `page=1` response. -/
theorem getRoles_nan_page_no_fallback :
    getRoles ⟨some "abc", none, none, none, none⟩ [demoRoleAt 0]
        = .serverError ∧
    getRoles ⟨some "1", none, none, none, none⟩ [demoRoleAt 0]
        = .success 200 "Roles fetched successfully"
            ⟨1, some 1, some 10, [demoRoleAt 0]⟩ ∧
    getRoles ⟨some "abc", none, none, none, none⟩ [demoRoleAt 0]
        ≠ getRoles ⟨some "1", none, none, none, none⟩ [demoRoleAt 0] := by
  refine ⟨by decide, by decide, by decide⟩

/-- The raw query parameters of `getUserSubscriptionPlans`. -/
structure SubListQuery where
  page : Option String
  limit : Option String
  sort : Option String
  order : Option String
  userId : Option OID
  planId : Option OID
deriving DecidableEq, Repr

/-- `parseInt(x, 10) || default`: the destructuring default applies when
the parameter is absent, and NaN — or a parsed 0, which is falsy — falls
back to the default too. -/
def parsedOr (d : Int) : Option String → Int
  | none => d
  | some str =>
    match parseIntJS str with
    | none => d
    | some v => if v = 0 then d else v

/-- The equality filters of `getUserSubscriptionPlans`. -/
def subsMatching (userId planId : Option OID) (subs : List UserSubDoc) :
    List UserSubDoc :=
  subs.filter (fun u =>
    (match userId with | some uid => u.userId == uid | none => true) &&
    (match planId with | some pid => u.subscriptionPlanId == pid | none => true))

/-- The default sort field `subscription_start_date` names no field of the
document, so every document's key is missing and compares equal: the
stable sort leaves the stored order unchanged.  Modelled by the
always-true comparator (under which stable insertion sort is the
identity). -/
def subLe (_field _ord : String) (_a _b : UserSubDoc) : Bool := true

/-- `getUserSubscriptionPlans`: unlike `getRoles`, `page` and `limit` go
through `parseInt(x, 10) || default`, so a non-numeric value falls back to
1 and 10 without touching the store with a NaN cursor.  (A parsed negative
page still yields a negative skip, which the server rejects — the 500
fallback.) -/
def getUserSubscriptionPlans (q : SubListQuery) (s : SubStore) :
    HResult (ListPayload UserSubDoc) :=
  if (parsedOr 1 q.page - 1) * parsedOr 10 q.limit < 0 then .serverError
  else
    .success 200 "User Subscription Plans retrieved successfully"
      { total := (subsMatching q.userId q.planId s.subs).length,
        page := some (parsedOr 1 q.page),
        limit := some (parsedOr 10 q.limit),
        data := applyLimit (parsedOr 10 q.limit)
          ((sortedBy (subLe (q.sort.getD "subscription_start_date")
              (q.order.getD "desc")) (subsMatching q.userId q.planId s.subs)).drop
            ((parsedOr 1 q.page - 1) * parsedOr 10 q.limit).toNat) }

/-- C8 amended: the safe non-throwing fallback holds for the list
operations that parse with `parseInt(x, 10) || default`
(`getUserSubscriptionPlans`): a non-numeric `page` or `limit` produces
exactly the response of the default (and of the equivalent numeric
parameter).  It does not hold for every list operation — `getRoles`
coerces the raw strings arithmetically and a non-numeric page fails the
request through the 500 fallback (see the counterexample). -/
theorem getUserSubscriptionPlans_page_fallback
    (q : SubListQuery) (s : SubStore) (str : String)
    (hnan : parseIntJS str = none) :
    getUserSubscriptionPlans { q with page := some str } s
        = getUserSubscriptionPlans { q with page := none } s ∧
    getUserSubscriptionPlans { q with page := some str } s
        = getUserSubscriptionPlans { q with page := some "1" } s ∧
    getUserSubscriptionPlans { q with limit := some str } s
        = getUserSubscriptionPlans { q with limit := none } s := by
  have h1 : parsedOr 1 (some str) = 1 := by simp [parsedOr, hnan]
  have h2 : parsedOr 1 (some "1") = (1 : Int) := by decide
  have h10 : parsedOr 10 (some str) = 10 := by simp [parsedOr, hnan]
  have h1n : parsedOr 1 none = (1 : Int) := rfl
  have h10n : parsedOr 10 none = (10 : Int) := rfl
  refine ⟨?_, ?_, ?_⟩
  · unfold getUserSubscriptionPlans
    simp only [h1, h1n]
  · unfold getUserSubscriptionPlans
    simp only [h1, h2]
  · unfold getUserSubscriptionPlans
    simp only [h10, h10n]

/-- Witness for the amended C8: `page = "abc"` and `page = "1"` give the
same subscription-plan list response. -/
theorem getUserSubscriptionPlans_page_fallback_witness :
    getUserSubscriptionPlans ⟨some "abc", none, none, none, none, none⟩
        demoSubStoreBusy
      = getUserSubscriptionPlans ⟨some "1", none, none, none, none, none⟩
        demoSubStoreBusy := by
  exact (getUserSubscriptionPlans_page_fallback
    ⟨some "abc", none, none, none, none, none⟩ demoSubStoreBusy "abc"
    (by decide)).2.1

end VdMenu
